import Mathlib

/-!
Verification development for the markdown-viewer watch/authorization core
(src-tauri crates `application` and `infrastructure`).

Paths are modelled as lists of path components (the segments of an absolute
path after the root), mirroring `std::path::Path`, whose `starts_with` and
`parent` operate component-wise.  External collaborators (the canonicalizer,
the linked-file opener, the OS filesystem, the native watcher backend) are
modelled as explicit function parameters / oracles, and the side effects the
claims speak about (opener invocations, canonicalizer invocations, spawned
poll threads, sent stop signals, joined threads) are made visible as explicit
trace components of each operation's result.
-/

namespace MarkdownViewer

/-- A filesystem path, as its list of components (segments). -/
abbrev FsPath := List String

/-- Component-wise `Path::parent`: `None` for the empty/root path, otherwise
the path with its last component removed. -/
def FsPath.parent? (p : FsPath) : Option FsPath :=
  match p with
  | [] => none
  | _ => some p.dropLast

/-- `Path::file_name`: the last component, when there is one. -/
def FsPath.fileName? (p : FsPath) : Option String :=
  p.getLast?

/-- `Path::starts_with`: component-wise (full-segment) path-prefix test. -/
def FsPath.startsWith (p base : FsPath) : Bool :=
  base.isPrefixOf p

/-- The `MarkdownViewerError` enum of `application/src/error.rs`. -/
inductive MVError where
  | fileNotFound (path : FsPath)
  | notMarkdown (path : FsPath)
  | readFile (path : FsPath) (reason : String)
  | watch (path : FsPath) (reason : String)
  | invalidSourceDocumentPath (path : FsPath)
  | resolvePath (path : FsPath) (reason : String)
  | linkedFileOutsideAllowedDirectory (path : FsPath) (allowed_directory : FsPath)
  | openLinkedFile (path : FsPath) (reason : String)
  deriving DecidableEq, Repr

/-- Result and observable effect trace of one `OpenLinkedFileUseCase::execute`
call: which paths were passed to the canonicalizer (in order), which paths
were passed to the opener, and the returned value. -/
structure OpenLinkedTrace where
  canonCalls : List FsPath
  openCalls : List FsPath
  result : Except MVError Unit
  deriving Repr

/-- `OpenLinkedFileUseCase::execute` from
`application/src/use_cases/open_linked_file.rs`, with the two injected
collaborators (`PathCanonicalizer::canonicalize`, `LinkedFileOpener::open_detached`)
as function parameters and the calls made to them recorded in the trace. -/
def OpenLinkedFileUseCase.execute
    (canonicalize : FsPath → Except MVError FsPath)
    (open_detached : FsPath → Except MVError Unit)
    (linked_path_input : FsPath) (source_document_path_input : FsPath) :
    OpenLinkedTrace :=
  match FsPath.parent? source_document_path_input with
  | none =>
      ⟨[], [], .error (.invalidSourceDocumentPath source_document_path_input)⟩
  | some source_directory =>
      match canonicalize source_directory with
      | .error e => ⟨[source_directory], [], .error e⟩
      | .ok canonical_source_directory =>
          match canonicalize linked_path_input with
          | .error e => ⟨[source_directory, linked_path_input], [], .error e⟩
          | .ok canonical_target_path =>
              if ¬ FsPath.startsWith canonical_target_path canonical_source_directory then
                ⟨[source_directory, linked_path_input], [],
                  .error (.linkedFileOutsideAllowedDirectory canonical_target_path
                    canonical_source_directory)⟩
              else
                ⟨[source_directory, linked_path_input], [canonical_target_path],
                  open_detached canonical_target_path⟩

/-- Rendering of a path for the change callback, mirroring
`Path::to_string_lossy` on an absolute path. -/
def FsPath.render (p : FsPath) : String :=
  String.intercalate "/" ("" :: p)

/-! ### Path resolver (`infrastructure/src/file_repository.rs`) -/

/-- Outcome of a failed `std::fs` operation: whether `kind()` is
`ErrorKind::NotFound`, and the OS reason text (`Display` output). -/
structure IoError where
  notFound : Bool
  text : String
  deriving DecidableEq, Repr

/-- Abstraction of the OS filesystem as the two queries
`canonicalize_existing_path` makes: `Path::canonicalize` and `Path::is_file`. -/
structure Filesystem where
  canonicalizeResult : FsPath → Except IoError FsPath
  isFile : FsPath → Bool

/-- `canonicalize_existing_path` from `infrastructure/src/file_repository.rs`. -/
def canonicalize_existing_path (fs : Filesystem) (path : FsPath) :
    Except MVError FsPath :=
  match fs.canonicalizeResult path with
  | .error source =>
      if source.notFound then .error (.fileNotFound path)
      else .error (.readFile path source.text)
  | .ok canonical_path =>
      if ¬ fs.isFile canonical_path then .error (.fileNotFound path)
      else .ok canonical_path

/-! ### File signature and the poll fallback loop
(`infrastructure/src/file_watcher.rs`) -/

/-- File metadata as `read_metadata_signature` consumes it: the length in
bytes, and the result of `metadata.modified()` as signed nanoseconds relative
to the Unix epoch (`.error ()` when the platform cannot report a modification
time). -/
structure Metadata where
  len : Nat
  modified : Option Int
  deriving DecidableEq, Repr

/-- `read_metadata_signature`: `None` when `fs::metadata` fails (the `file`
argument is `none`), when `modified()` fails (the `modified` field is `none`),
or when `duration_since(UNIX_EPOCH)` fails because the modification time
precedes the epoch; otherwise the `(size, nanoseconds)` signature. -/
def read_metadata_signature (file : Option Metadata) : Option (Nat × Nat) :=
  match file with
  | none => none
  | some metadata =>
      match metadata.modified with
      | none => none
      | some t => if t < 0 then none else some (metadata.len, t.toNat)

/-- What one turn of `recv_timeout` in the poll loop yields: a stop signal, a
disconnected channel, or a timeout together with the file state (`none` when
`fs::metadata` fails) the loop then reads. -/
inductive PollEvent where
  | stopSignal
  | disconnected
  | timeout (file : Option Metadata)
  deriving DecidableEq, Repr

/-- Observable outcome of one iteration of the poll loop body: whether the
loop breaks, the updated last-observed signature, and the callback invocations
(each carrying the watched file's path string). -/
structure PollIteration where
  exits : Bool
  newLast : Option (Nat × Nat)
  callbacks : List String
  deriving DecidableEq, Repr

/-- One iteration of the loop body inside `start_poll_fallback`:
`Ok(()) | Err(Disconnected)` break; on `Err(Timeout)` the fresh signature is
read and, when it differs from the last observed one, the last observed value
is updated and the callback fires with the watched file's path string. -/
def poll_iteration (watched_path_str : String) (last : Option (Nat × Nat))
    (e : PollEvent) : PollIteration :=
  match e with
  | .stopSignal => ⟨true, last, []⟩
  | .disconnected => ⟨true, last, []⟩
  | .timeout file =>
      let current := read_metadata_signature file
      if current ≠ last then ⟨false, current, [watched_path_str]⟩
      else ⟨false, last, []⟩

/-! ### Native watcher event filtering -/

/-- The `notify::event::ModifyKind` cases (payloads of the sub-kinds are
irrelevant to the matches in the source and elided). -/
inductive ModifyKind where
  | any
  | dataChange
  | metadataChange
  | nameChange
  | other
  deriving DecidableEq, Repr

/-- The `notify::EventKind` cases (payloads other than `Modify`'s are elided:
the source matches them with wildcards). -/
inductive EventKind where
  | any
  | access
  | create
  | modify (k : ModifyKind)
  | remove
  | other
  deriving DecidableEq, Repr

/-- A `notify::Event`: its kind and its reported paths. -/
structure Event where
  kind : EventKind
  paths : List FsPath
  deriving DecidableEq, Repr

/-- `should_emit_reload`: creation, removal, data-modification and
name-modification events are relevant; everything else is ignored. -/
def should_emit_reload (event : Event) : Bool :=
  match event.kind with
  | .create => true
  | .remove => true
  | .modify .dataChange => true
  | .modify .nameChange => true
  | _ => false

/-- `case_insensitive_os_str_eq` (Windows only): compare the lossy string
forms lowercased. -/
def case_insensitive_str_eq (left right : String) : Bool :=
  left.toLower == right.toLower

/-- `paths_equal_for_watch`: byte equality on case-sensitive platforms,
lowercased comparison on Windows (component-wise, which mirrors lowercasing
the whole rendered path since lowercasing never produces a separator).  The
`windows` flag selects which `cfg` branch of the source is meant. -/
def paths_equal_for_watch (windows : Bool) (left right : FsPath) : Bool :=
  if windows then left.map String.toLower == right.map String.toLower
  else left == right

/-- `file_names_equal_for_watch`: byte equality on case-sensitive platforms,
case-insensitive on Windows. -/
def file_names_equal_for_watch (windows : Bool) (left right : String) : Bool :=
  if windows then case_insensitive_str_eq left right
  else left == right

/-- The closure iterated by `affects_watched_file` over the reported paths:
the candidate equals the watched file, or candidate and watched file both
have a parent and a file name and those agree pairwise. -/
def affects_candidate (windows : Bool) (watched_parent : Option FsPath)
    (watched_name : Option String) (watched_file : FsPath)
    (candidate : FsPath) : Bool :=
  if paths_equal_for_watch windows candidate watched_file then true
  else
    match FsPath.parent? candidate, FsPath.fileName? candidate,
        watched_parent, watched_name with
    | some candidate_parent, some candidate_name, some parent, some name =>
        paths_equal_for_watch windows candidate_parent parent &&
        file_names_equal_for_watch windows candidate_name name
    | _, _, _, _ => false

/-- `affects_watched_file`: some reported path equals the watched file, or has
both the same parent directory and the same file name. -/
def affects_watched_file (windows : Bool) (paths : List FsPath)
    (watched_file : FsPath) : Bool :=
  let watched_parent := FsPath.parent? watched_file
  let watched_name := FsPath.fileName? watched_file
  paths.any (affects_candidate windows watched_parent watched_name watched_file)

/-- The event callback installed by `try_start_native_watcher`: errors are
dropped, irrelevant kinds are dropped, and otherwise `on_changed` fires with
the watched file's path string exactly when some reported path affects the
watched file.  The returned list is the sequence of `on_changed` invocations. -/
def native_watcher_callback (windows : Bool) (watched_file : FsPath)
    (result : Except Unit Event) : List String :=
  match result with
  | .error _ => []
  | .ok event =>
      if ¬ should_emit_reload event then []
      else if affects_watched_file windows event.paths watched_file then
        [FsPath.render watched_file]
      else []

/-! ### Watch session manager (`MarkdownFileWatchService`) -/

/-- The `ActiveWatcher` session record.  Handles are modelled by numeric ids;
`watcher` is the optional native-watcher handle. -/
structure ActiveWatcher where
  watched_file : FsPath
  watched_dir : FsPath
  watcher : Option Nat
  poll_stop_sender : Option Nat
  poll_thread : Option Nat
  deriving DecidableEq, Repr

/-- The state of a `MarkdownFileWatchService`: the mutex-guarded session slot,
and whether that mutex is poisoned. -/
structure WatchServiceState where
  active_watcher : Option ActiveWatcher
  poisoned : Bool
  deriving DecidableEq, Repr

/-- Externally observable side effects of `start`/`stop`: spawning a poll
thread, sending a stop signal on a sender, joining a thread. -/
inductive WatchEffect where
  | spawnPollThread (thread_id : Nat)
  | sendStop (sender_id : Nat)
  | joinThread (thread_id : Nat)
  deriving DecidableEq, Repr

/-- Count of poll threads spawned in an effect trace. -/
def pollThreadsSpawned (effects : List WatchEffect) : Nat :=
  effects.countP fun f =>
    match f with
    | .spawnPollThread _ => true
    | _ => false

/-- `MarkdownFileWatchService::stop`: on a poisoned lock the `Err(_) => None`
arm leaves everything untouched; otherwise the slot is taken and, when a
session was present, the stop signal is sent (if a sender exists) and the
poll thread joined (if one exists). -/
def MarkdownFileWatchService.stop (s : WatchServiceState) :
    WatchServiceState × List WatchEffect :=
  if s.poisoned then (s, [])
  else
    match s.active_watcher with
    | none => (s, [])
    | some active =>
        let sendFx := match active.poll_stop_sender with
          | some sender_id => [WatchEffect.sendStop sender_id]
          | none => []
        let joinFx := match active.poll_thread with
          | some thread_id => [WatchEffect.joinThread thread_id]
          | none => []
        ({ s with active_watcher := none }, sendFx ++ joinFx)

/-- `Drop for MarkdownFileWatchService`: the destructor calls `self.stop()`. -/
def MarkdownFileWatchService.drop (s : WatchServiceState) :
    WatchServiceState × List WatchEffect :=
  MarkdownFileWatchService.stop s

/-- `start_poll_fallback_if_needed`: nothing when the native watcher started,
otherwise a fresh (sender, thread) pair and one spawned poll thread. -/
def start_poll_fallback_if_needed (native_watcher_started : Bool)
    (fresh_sender_id fresh_thread_id : Nat) :
    (Option Nat × Option Nat) × List WatchEffect :=
  if native_watcher_started then ((none, none), [])
  else ((some fresh_sender_id, some fresh_thread_id),
    [WatchEffect.spawnPollThread fresh_thread_id])

/-- Result of one `MarkdownFileWatchService::start` call: the new service
state, the side-effect trace, and the returned value. -/
structure StartOutcome where
  state : WatchServiceState
  effects : List WatchEffect
  result : Except MVError Unit
  deriving Repr

/-- `MarkdownFileWatchService::start`.  `resolve_result` is the outcome of
`resolve_path_input(path_input)` and `native_watcher` the outcome of
`try_start_native_watcher` (its handle when registration succeeded), both
external oracles.  Mirrors the source order: resolve, take the parent,
`self.stop()`, try the native watcher, start the poll fallback if needed,
then lock the slot (surfacing poisoning as a watch error) and record the
session. -/
def MarkdownFileWatchService.start (s : WatchServiceState)
    (resolve_result : Except MVError FsPath) (native_watcher : Option Nat)
    (fresh_sender_id fresh_thread_id : Nat) : StartOutcome :=
  match resolve_result with
  | .error e => ⟨s, [], .error e⟩
  | .ok watched_file =>
      match FsPath.parent? watched_file with
      | none =>
          ⟨s, [], .error (.watch watched_file
            "cannot watch a file without a parent directory")⟩
      | some watched_dir =>
          let stopped := MarkdownFileWatchService.stop s
          let fallback := start_poll_fallback_if_needed native_watcher.isSome
            fresh_sender_id fresh_thread_id
          if stopped.1.poisoned then
            ⟨stopped.1, stopped.2 ++ fallback.2, .error (.watch watched_file
              "internal watcher state is poisoned")⟩
          else
            let session : ActiveWatcher :=
              ⟨watched_file, watched_dir, native_watcher,
                fallback.1.1, fallback.1.2⟩
            ⟨{ stopped.1 with active_watcher := some session },
              stopped.2 ++ fallback.2, .ok ()⟩

/-! ## Theorems -/

/-- C1: when both canonicalizations succeed, `OpenLinkedFileUseCase::execute`
invokes the opener (with the canonical target path) if and only if the
canonical target path starts with the canonical source directory as a
full-segment path prefix; when it does not, it returns the
outside-allowed-directory error carrying both canonical paths and the opener
is never invoked. -/
theorem C1_containment_gates_opener
    (canonicalize : FsPath → Except MVError FsPath)
    (open_detached : FsPath → Except MVError Unit)
    (linked source srcDir csrc ctgt : FsPath)
    (hparent : FsPath.parent? source = some srcDir)
    (hsrc : canonicalize srcDir = .ok csrc)
    (htgt : canonicalize linked = .ok ctgt) :
    ((OpenLinkedFileUseCase.execute canonicalize open_detached linked source).openCalls ≠ []
      ↔ FsPath.startsWith ctgt csrc = true) ∧
    (FsPath.startsWith ctgt csrc = true →
      OpenLinkedFileUseCase.execute canonicalize open_detached linked source
        = ⟨[srcDir, linked], [ctgt], open_detached ctgt⟩) ∧
    (FsPath.startsWith ctgt csrc = false →
      OpenLinkedFileUseCase.execute canonicalize open_detached linked source
        = ⟨[srcDir, linked], [],
            .error (.linkedFileOutsideAllowedDirectory ctgt csrc)⟩) := by
  unfold OpenLinkedFileUseCase.execute
  rw [hparent]
  cases h : FsPath.startsWith ctgt csrc <;> simp [hsrc, htgt, h]

/-- C1 witness: an in-tree target is handed to the opener. -/
theorem C1_witness :
    (OpenLinkedFileUseCase.execute (fun p => Except.ok p) (fun _ => Except.ok ())
        ["w", "d", "x.md"] ["w", "d", "m.md"]).openCalls = [["w", "d", "x.md"]] := by
  have h := C1_containment_gates_opener (fun p => Except.ok p) (fun _ => Except.ok ())
    ["w", "d", "x.md"] ["w", "d", "m.md"] ["w", "d"] ["w", "d"] ["w", "d", "x.md"]
    (by decide) rfl rfl
  rw [h.2.1 (by decide)]

/-- C2: a source document path without a parent yields the
invalid-source-document-path error with no canonicalizer call; a failing
source-directory canonicalization is propagated verbatim with the linked path
never canonicalized and the opener never invoked; a failing linked-path
canonicalization (after a successful source-directory one) is propagated
verbatim with the opener never invoked. -/
theorem C2_error_paths
    (canonicalize : FsPath → Except MVError FsPath)
    (open_detached : FsPath → Except MVError Unit)
    (linked source : FsPath) :
    (FsPath.parent? source = none →
      OpenLinkedFileUseCase.execute canonicalize open_detached linked source
        = ⟨[], [], .error (.invalidSourceDocumentPath source)⟩) ∧
    (∀ srcDir e, FsPath.parent? source = some srcDir →
      canonicalize srcDir = .error e →
      OpenLinkedFileUseCase.execute canonicalize open_detached linked source
        = ⟨[srcDir], [], .error e⟩) ∧
    (∀ srcDir csrc e, FsPath.parent? source = some srcDir →
      canonicalize srcDir = .ok csrc → canonicalize linked = .error e →
      OpenLinkedFileUseCase.execute canonicalize open_detached linked source
        = ⟨[srcDir, linked], [], .error e⟩) := by
  refine ⟨fun h => ?_, fun srcDir e h h1 => ?_, fun srcDir csrc e h h1 h2 => ?_⟩ <;>
    unfold OpenLinkedFileUseCase.execute <;> rw [h] <;> simp_all

/-- C2 witness: a failing source-directory canonicalization propagates and
stops the pipeline after one canonicalizer call. -/
theorem C2_witness :
    OpenLinkedFileUseCase.execute
        (fun _ => Except.error (MVError.resolvePath ["d"] "permission denied"))
        (fun _ => Except.ok ()) ["d", "x.md"] ["d", "m.md"]
      = ⟨[["d"]], [], .error (.resolvePath ["d"] "permission denied")⟩ :=
  (C2_error_paths (fun _ => Except.error (MVError.resolvePath ["d"] "permission denied"))
      (fun _ => Except.ok ()) ["d", "x.md"] ["d", "m.md"]).2.1
    ["d"] (MVError.resolvePath ["d"] "permission denied") (by decide) rfl

/-- C8: the resolver fails with FileNotFound exactly when canonicalization
reports a not-found error kind or the canonical path is not a regular file;
any other canonicalization error kind surfaces as the read-failure error
carrying the OS reason text. -/
theorem C8_resolver_error_classification (fs : Filesystem) (path : FsPath) :
    (canonicalize_existing_path fs path = .error (.fileNotFound path) ↔
      ((∃ e, fs.canonicalizeResult path = .error e ∧ e.notFound = true) ∨
       (∃ c, fs.canonicalizeResult path = .ok c ∧ fs.isFile c = false))) ∧
    (∀ e, fs.canonicalizeResult path = .error e → e.notFound = false →
      canonicalize_existing_path fs path = .error (.readFile path e.text)) := by
  constructor
  · unfold canonicalize_existing_path
    cases h : fs.canonicalizeResult path with
    | error e => cases he : e.notFound <;> simp [h, he]
    | ok c => cases hc : fs.isFile c <;> simp [h, hc]
  · intro e h he
    unfold canonicalize_existing_path
    rw [h]
    simp [he]

/-- C8 witness: a permission-style canonicalization failure surfaces as the
read-failure error with the OS reason text. -/
theorem C8_witness :
    canonicalize_existing_path
        ⟨fun _ => Except.error ⟨false, "permission denied"⟩, fun _ => true⟩ ["a"]
      = .error (.readFile ["a"] "permission denied") :=
  (C8_resolver_error_classification
      ⟨fun _ => Except.error ⟨false, "permission denied"⟩, fun _ => true⟩ ["a"]).2
    ⟨false, "permission denied"⟩ rfl rfl

/-- Unfolding of the timed-out branch of the poll loop body. -/
lemma poll_iteration_timeout (watched : String) (last : Option (Nat × Nat))
    (file : Option Metadata) :
    poll_iteration watched last (PollEvent.timeout file)
      = if read_metadata_signature file ≠ last
        then ⟨false, read_metadata_signature file, [watched]⟩
        else ⟨false, last, []⟩ := rfl

/-- C4: in every timed-out iteration of the poll loop the callback fires (with
the watched file's path string) exactly when the freshly read signature
differs from the last observed one, and the last observed value becomes the
fresh signature; present-to-absent and absent-to-present transitions each
count as a change; the loop exits exactly on a stop signal or a disconnected
channel (metadata read failure never breaks the loop: it is a `none`
signature, not a panic). -/
theorem C4_poll_iteration_behaviour (watched : String)
    (last : Option (Nat × Nat)) (file : Option Metadata) (sig : Nat × Nat) :
    (poll_iteration watched last PollEvent.stopSignal).exits = true ∧
    (poll_iteration watched last PollEvent.disconnected).exits = true ∧
    (poll_iteration watched last (PollEvent.timeout file)).exits = false ∧
    (poll_iteration watched last (PollEvent.timeout file)).newLast
      = read_metadata_signature file ∧
    ((poll_iteration watched last (PollEvent.timeout file)).callbacks ≠ []
      ↔ read_metadata_signature file ≠ last) ∧
    ((poll_iteration watched last (PollEvent.timeout file)).callbacks
      = if read_metadata_signature file ≠ last then [watched] else []) ∧
    (poll_iteration watched (some sig) (PollEvent.timeout none)).callbacks
      = [watched] ∧
    (poll_iteration watched none
        (PollEvent.timeout (some ⟨sig.1, some (sig.2 : Int)⟩))).callbacks
      = [watched] := by
  have hnneg : ¬ ((sig.2 : Int) < 0) := not_lt.mpr (Int.ofNat_nonneg sig.2)
  have hsome : read_metadata_signature (some ⟨sig.1, some (sig.2 : Int)⟩)
      = some (sig.1, sig.2) := by
    simp [read_metadata_signature, hnneg]
  have hnone : read_metadata_signature none = none := rfl
  refine ⟨rfl, rfl, ?_, ?_, ?_, ?_, ?_, ?_⟩ <;>
    rw [poll_iteration_timeout] <;>
    by_cases h : read_metadata_signature file = last <;>
    simp [h, hsome, hnone]

/-- C10: a readable file whose modification time precedes the Unix epoch (or
whose modification time cannot be read) yields an absent signature, so the
poll loop treats it exactly like an absent file, whatever its size. -/
theorem C10_pre_epoch_mtime_is_absent (sz : Nat) (t : Int) (watched : String)
    (last : Option (Nat × Nat)) (ht : t < 0) :
    read_metadata_signature (some ⟨sz, some t⟩) = none ∧
    read_metadata_signature (some ⟨sz, none⟩) = none ∧
    poll_iteration watched last (PollEvent.timeout (some ⟨sz, some t⟩))
      = poll_iteration watched last (PollEvent.timeout none) := by
  have h1 : read_metadata_signature (some ⟨sz, some t⟩) = none := by
    simp [read_metadata_signature, ht]
  refine ⟨h1, rfl, ?_⟩
  simp only [poll_iteration, h1]
  rfl

/-- C10 witness: a file of size 5 with modification time one nanosecond
before the epoch polls exactly like a missing file. -/
theorem C10_witness :
    read_metadata_signature (some ⟨5, some (-1)⟩) = none ∧
    read_metadata_signature (some ⟨5, none⟩) = none ∧
    poll_iteration "/t/a.md" (some (5, 3)) (PollEvent.timeout (some ⟨5, some (-1)⟩))
      = poll_iteration "/t/a.md" (some (5, 3)) (PollEvent.timeout none) :=
  C10_pre_epoch_mtime_is_absent 5 (-1) "/t/a.md" (some (5, 3)) (by decide)

/-- The relevant-kind filter, spelled out over the event-kind cases. -/
lemma should_emit_reload_iff (event : Event) :
    should_emit_reload event = true ↔
      (event.kind = EventKind.create ∨ event.kind = EventKind.remove ∨
       event.kind = EventKind.modify ModifyKind.dataChange ∨
       event.kind = EventKind.modify ModifyKind.nameChange) := by
  obtain ⟨k, ps⟩ := event
  cases k <;> try simp [should_emit_reload]
  rename_i mk
  cases mk <;> simp [should_emit_reload]

/-- The per-candidate test of `affects_watched_file`, spelled out. -/
lemma affects_candidate_iff (windows : Bool) (watched p : FsPath) :
    affects_candidate windows (FsPath.parent? watched) (FsPath.fileName? watched)
        watched p = true ↔
      (paths_equal_for_watch windows p watched = true ∨
       (∃ cp cn wp wn, FsPath.parent? p = some cp ∧ FsPath.fileName? p = some cn ∧
         FsPath.parent? watched = some wp ∧ FsPath.fileName? watched = some wn ∧
         paths_equal_for_watch windows cp wp = true ∧
         file_names_equal_for_watch windows cn wn = true)) := by
  unfold affects_candidate
  by_cases hpe : paths_equal_for_watch windows p watched = true
  · simp [hpe]
  · cases hc : FsPath.parent? p <;> cases hn : FsPath.fileName? p <;>
      cases hwp : FsPath.parent? watched <;> cases hwn : FsPath.fileName? watched <;>
      simp [hpe, hc, hn, hwp, hwn, Bool.and_eq_true]

/-- `affects_watched_file`, spelled out as an existential over the reported
paths. -/
lemma affects_watched_file_iff (windows : Bool) (paths : List FsPath)
    (watched : FsPath) :
    affects_watched_file windows paths watched = true ↔
      ∃ p ∈ paths,
        (paths_equal_for_watch windows p watched = true ∨
         (∃ cp cn wp wn, FsPath.parent? p = some cp ∧ FsPath.fileName? p = some cn ∧
           FsPath.parent? watched = some wp ∧ FsPath.fileName? watched = some wn ∧
           paths_equal_for_watch windows cp wp = true ∧
           file_names_equal_for_watch windows cn wn = true)) := by
  simp only [affects_watched_file, List.any_eq_true]
  exact exists_congr fun p => and_congr_right fun _ =>
    affects_candidate_iff windows watched p

/-- C9: the native-watcher callback fires (with the watched file's path
string) if and only if the event kind is a creation, removal,
data-modification or name-modification and some reported path equals the
watched file or shares both its parent directory and its file name, under the
platform's path comparison; every other event kind is ignored. -/
theorem C9_native_event_filter (windows : Bool) (watched : FsPath)
    (event : Event) :
    (native_watcher_callback windows watched (Except.ok event) ≠ [] ↔
      ((event.kind = EventKind.create ∨ event.kind = EventKind.remove ∨
        event.kind = EventKind.modify ModifyKind.dataChange ∨
        event.kind = EventKind.modify ModifyKind.nameChange) ∧
       ∃ p ∈ event.paths,
         (paths_equal_for_watch windows p watched = true ∨
          (∃ cp cn wp wn, FsPath.parent? p = some cp ∧ FsPath.fileName? p = some cn ∧
            FsPath.parent? watched = some wp ∧ FsPath.fileName? watched = some wn ∧
            paths_equal_for_watch windows cp wp = true ∧
            file_names_equal_for_watch windows cn wn = true)))) ∧
    (native_watcher_callback windows watched (Except.ok event) = [] ∨
     native_watcher_callback windows watched (Except.ok event)
       = [FsPath.render watched]) ∧
    (∀ l r : FsPath, paths_equal_for_watch false l r = true ↔ l = r) ∧
    (∀ l r : FsPath, paths_equal_for_watch true l r = true ↔
      l.map String.toLower = r.map String.toLower) ∧
    (∀ l r : String, file_names_equal_for_watch false l r = true ↔ l = r) ∧
    (∀ l r : String, file_names_equal_for_watch true l r = true ↔
      l.toLower = r.toLower) := by
  rw [← should_emit_reload_iff, ← affects_watched_file_iff windows event.paths watched]
  refine ⟨?_, ?_, ?_, ?_, ?_, ?_⟩
  · unfold native_watcher_callback
    by_cases hk : should_emit_reload event = true <;>
      by_cases ha : affects_watched_file windows event.paths watched = true <;>
      simp [hk, ha]
  · unfold native_watcher_callback
    by_cases hk : should_emit_reload event = true <;>
      by_cases ha : affects_watched_file windows event.paths watched = true <;>
      simp [hk, ha]
  · intro l r
    simp [paths_equal_for_watch]
  · intro l r
    simp [paths_equal_for_watch]
  · intro l r
    simp [file_names_equal_for_watch]
  · intro l r
    simp [file_names_equal_for_watch, case_insensitive_str_eq]

/-- Stopping never changes the poisoned bit. -/
lemma stop_preserves_poisoned (s : WatchServiceState) :
    (MarkdownFileWatchService.stop s).1.poisoned = s.poisoned := by
  unfold MarkdownFileWatchService.stop
  by_cases hp : s.poisoned = true <;> cases ha : s.active_watcher <;> simp [hp, ha]

/-- Stopping never spawns a poll thread. -/
lemma stop_effects_no_spawn (s : WatchServiceState) :
    pollThreadsSpawned (MarkdownFileWatchService.stop s).2 = 0 := by
  unfold MarkdownFileWatchService.stop pollThreadsSpawned
  by_cases hp : s.poisoned = true
  · simp [hp]
  · cases ha : s.active_watcher with
    | none => simp [hp, ha]
    | some a =>
        cases hs : a.poll_stop_sender <;> cases ht : a.poll_thread <;>
          simp [hp, ha, hs, ht, List.countP_cons]

/-- Spawn counts add up over concatenated effect traces. -/
lemma pollThreadsSpawned_append (l₁ l₂ : List WatchEffect) :
    pollThreadsSpawned (l₁ ++ l₂)
      = pollThreadsSpawned l₁ + pollThreadsSpawned l₂ := by
  unfold pollThreadsSpawned
  simp [List.countP_append]

/-- Stopping with a poisoned lock does nothing at all. -/
lemma stop_of_poisoned (s : WatchServiceState) (hp : s.poisoned = true) :
    MarkdownFileWatchService.stop s = (s, []) := by
  unfold MarkdownFileWatchService.stop
  simp [hp]

/-- Stopping with an empty session slot does nothing at all. -/
lemma stop_of_idle (s : WatchServiceState) (h : s.active_watcher = none) :
    MarkdownFileWatchService.stop s = (s, []) := by
  unfold MarkdownFileWatchService.stop
  by_cases hp : s.poisoned = true <;> simp [hp, h]

/-- Stopping with a healthy lock empties the session slot. -/
lemma stop_clears_slot (s : WatchServiceState) (hp : s.poisoned = false) :
    (MarkdownFileWatchService.stop s).1.active_watcher = none := by
  unfold MarkdownFileWatchService.stop
  cases ha : s.active_watcher <;> simp [hp, ha]

/-- Unfolding of a `start` call that reaches the session-recording step with a
healthy lock. -/
lemma start_ok_unfold (s : WatchServiceState) (watched_file watched_dir : FsPath)
    (native_watcher : Option Nat) (sid tid : Nat)
    (hparent : FsPath.parent? watched_file = some watched_dir)
    (hnp : s.poisoned = false) :
    MarkdownFileWatchService.start s (.ok watched_file) native_watcher sid tid
      = ⟨⟨some (ActiveWatcher.mk watched_file watched_dir native_watcher
              (start_poll_fallback_if_needed native_watcher.isSome sid tid).1.1
              (start_poll_fallback_if_needed native_watcher.isSome sid tid).1.2),
            false⟩,
          (MarkdownFileWatchService.stop s).2
            ++ (start_poll_fallback_if_needed native_watcher.isSome sid tid).2,
          .ok ()⟩ := by
  have h := stop_preserves_poisoned s
  rw [hnp] at h
  simp [MarkdownFileWatchService.start, hparent, h]

/-- C3: a session recorded by `start` holds the native handle exactly when
native registration succeeded, and the poll stop-sender and poll
thread-handle exactly when it failed; with a native watcher no poll thread is
spawned, and without one exactly one poll thread is spawned. -/
theorem C3_session_strategy_invariant (s : WatchServiceState)
    (watched_file watched_dir : FsPath) (native_watcher : Option Nat)
    (fresh_sender_id fresh_thread_id : Nat)
    (hpoison : s.poisoned = false)
    (hparent : FsPath.parent? watched_file = some watched_dir) :
    ∃ a : ActiveWatcher,
      (MarkdownFileWatchService.start s (.ok watched_file) native_watcher
          fresh_sender_id fresh_thread_id).state.active_watcher = some a ∧
      (a.watcher.isSome ↔ native_watcher.isSome) ∧
      ((a.poll_stop_sender.isSome ∧ a.poll_thread.isSome) ↔ native_watcher = none) ∧
      (native_watcher.isSome →
        pollThreadsSpawned (MarkdownFileWatchService.start s (.ok watched_file)
          native_watcher fresh_sender_id fresh_thread_id).effects = 0) ∧
      (native_watcher = none →
        pollThreadsSpawned (MarkdownFileWatchService.start s (.ok watched_file)
          native_watcher fresh_sender_id fresh_thread_id).effects = 1) := by
  rw [start_ok_unfold s watched_file watched_dir native_watcher fresh_sender_id
    fresh_thread_id hparent hpoison]
  cases native_watcher with
  | some h =>
      refine ⟨⟨watched_file, watched_dir, some h, none, none⟩, rfl, Iff.rfl, ?_, ?_, ?_⟩
      · simp
      · intro _
        rw [pollThreadsSpawned_append, stop_effects_no_spawn]
        rfl
      · intro hcontra
        simp at hcontra
  | none =>
      refine ⟨⟨watched_file, watched_dir, none, some fresh_sender_id,
        some fresh_thread_id⟩, rfl, Iff.rfl, ?_, ?_, ?_⟩
      · simp
      · intro hcontra
        simp at hcontra
      · intro _
        rw [pollThreadsSpawned_append, stop_effects_no_spawn]
        rfl

/-- C3 witness: starting on an idle service without a native watcher records a
poll-based session. -/
theorem C3_witness :
    ∃ a : ActiveWatcher,
      (MarkdownFileWatchService.start ⟨none, false⟩ (.ok ["t", "a.md"]) none 0 1).state.active_watcher = some a ∧
      (a.watcher.isSome ↔ (none : Option Nat).isSome) ∧
      ((a.poll_stop_sender.isSome ∧ a.poll_thread.isSome) ↔ (none : Option Nat) = none) ∧
      ((none : Option Nat).isSome →
        pollThreadsSpawned (MarkdownFileWatchService.start ⟨none, false⟩
          (.ok ["t", "a.md"]) none 0 1).effects = 0) ∧
      ((none : Option Nat) = none →
        pollThreadsSpawned (MarkdownFileWatchService.start ⟨none, false⟩
          (.ok ["t", "a.md"]) none 0 1).effects = 1) :=
  C3_session_strategy_invariant ⟨none, false⟩ ["t", "a.md"] ["t"] none 0 1 rfl (by decide)

/-- C5: a `start` whose path resolution fails, or whose resolved file has no
parent, returns the corresponding typed error with the service state
untouched and no side effect performed. -/
theorem C5_start_failfast (s : WatchServiceState) (native_watcher : Option Nat)
    (fresh_sender_id fresh_thread_id : Nat) :
    (∀ e, MarkdownFileWatchService.start s (.error e) native_watcher
        fresh_sender_id fresh_thread_id = ⟨s, [], .error e⟩) ∧
    (∀ watched_file, FsPath.parent? watched_file = none →
      MarkdownFileWatchService.start s (.ok watched_file) native_watcher
          fresh_sender_id fresh_thread_id
        = ⟨s, [], .error (.watch watched_file
            "cannot watch a file without a parent directory")⟩) := by
  refine ⟨fun e => rfl, fun watched_file h => ?_⟩
  simp [MarkdownFileWatchService.start, h]

/-- C5 witness: both failure shapes leave a live poll session untouched. -/
theorem C5_witness :
    MarkdownFileWatchService.start
        ⟨some ⟨["t", "a.md"], ["t"], none, some 0, some 1⟩, false⟩
        (.error (.fileNotFound ["x"])) none 2 3
      = ⟨⟨some ⟨["t", "a.md"], ["t"], none, some 0, some 1⟩, false⟩, [],
          .error (.fileNotFound ["x"])⟩ ∧
    MarkdownFileWatchService.start
        ⟨some ⟨["t", "a.md"], ["t"], none, some 0, some 1⟩, false⟩ (.ok []) none 2 3
      = ⟨⟨some ⟨["t", "a.md"], ["t"], none, some 0, some 1⟩, false⟩, [],
          .error (.watch [] "cannot watch a file without a parent directory")⟩ :=
  ⟨(C5_start_failfast ⟨some ⟨["t", "a.md"], ["t"], none, some 0, some 1⟩, false⟩
      none 2 3).1 (.fileNotFound ["x"]),
   (C5_start_failfast ⟨some ⟨["t", "a.md"], ["t"], none, some 0, some 1⟩, false⟩
      none 2 3).2 [] rfl⟩

/-- C6: `stop` on an idle service is a no-op without error; on an active
session (healthy lock) it clears the slot, sends the stop signal when a poll
sender exists and joins the poll thread when one exists; dropping the service
is exactly `stop`; and `stop` after `stop` does nothing further. -/
theorem C6_stop_idempotent (s : WatchServiceState) :
    (s.active_watcher = none → MarkdownFileWatchService.stop s = (s, [])) ∧
    (∀ a, s.poisoned = false → s.active_watcher = some a →
      (MarkdownFileWatchService.stop s).1 = { s with active_watcher := none } ∧
      (∀ i, a.poll_stop_sender = some i →
        WatchEffect.sendStop i ∈ (MarkdownFileWatchService.stop s).2) ∧
      (∀ i, a.poll_thread = some i →
        WatchEffect.joinThread i ∈ (MarkdownFileWatchService.stop s).2)) ∧
    (MarkdownFileWatchService.drop s = MarkdownFileWatchService.stop s) ∧
    (MarkdownFileWatchService.stop (MarkdownFileWatchService.stop s).1
      = ((MarkdownFileWatchService.stop s).1, [])) := by
  refine ⟨fun h => stop_of_idle s h, fun a hp ha => ?_, rfl, ?_⟩
  · refine ⟨?_, fun i hi => ?_, fun i hi => ?_⟩ <;>
      unfold MarkdownFileWatchService.stop <;> simp_all
  · by_cases hp : s.poisoned = true
    · rw [stop_of_poisoned s hp, stop_of_poisoned s hp]
    · have hp' : s.poisoned = false := eq_false_of_ne_true hp
      exact stop_of_idle _ (stop_clears_slot s hp')

/-- C6 witness: stopping a live poll session clears the slot, signals the
sender and joins the thread. -/
theorem C6_witness :
    ((MarkdownFileWatchService.stop
        ⟨some ⟨["t", "a.md"], ["t"], none, some 0, some 1⟩, false⟩).1
      = ⟨none, false⟩) ∧
    WatchEffect.sendStop 0 ∈ (MarkdownFileWatchService.stop
      ⟨some ⟨["t", "a.md"], ["t"], none, some 0, some 1⟩, false⟩).2 ∧
    WatchEffect.joinThread 1 ∈ (MarkdownFileWatchService.stop
      ⟨some ⟨["t", "a.md"], ["t"], none, some 0, some 1⟩, false⟩).2 := by
  have h := (C6_stop_idempotent
      ⟨some ⟨["t", "a.md"], ["t"], none, some 0, some 1⟩, false⟩).2.1
    ⟨["t", "a.md"], ["t"], none, some 0, some 1⟩ rfl rfl
  exact ⟨h.1, h.2.1 0 rfl, h.2.2 1 rfl⟩

/-- C7 counterexample: with a poisoned lock and a live session, `stop` — whose
return type has no error channel — leaves the state untouched and performs no
effect, i.e. it silently does nothing instead of surfacing a watch error. -/
theorem C7_counterexample :
    (⟨some ⟨["t", "a.md"], ["t"], none, some 0, some 1⟩, true⟩ :
        WatchServiceState).poisoned = true ∧
    MarkdownFileWatchService.stop
        ⟨some ⟨["t", "a.md"], ["t"], none, some 0, some 1⟩, true⟩
      = (⟨some ⟨["t", "a.md"], ["t"], none, some 0, some 1⟩, true⟩, []) :=
  ⟨rfl, rfl⟩

/-- C7 (amended): with a poisoned session-slot lock, `start` surfaces the
poisoned-lock watch error (and leaves the slot as it was), while `stop`, whose
signature has no error channel, treats the slot as unavailable and silently
does nothing. -/
theorem C7_amended_poisoning (s : WatchServiceState)
    (watched_file watched_dir : FsPath) (native_watcher : Option Nat)
    (fresh_sender_id fresh_thread_id : Nat)
    (hpoison : s.poisoned = true)
    (hparent : FsPath.parent? watched_file = some watched_dir) :
    ((MarkdownFileWatchService.start s (.ok watched_file) native_watcher
        fresh_sender_id fresh_thread_id).result
      = .error (.watch watched_file "internal watcher state is poisoned")) ∧
    ((MarkdownFileWatchService.start s (.ok watched_file) native_watcher
        fresh_sender_id fresh_thread_id).state = s) ∧
    MarkdownFileWatchService.stop s = (s, []) := by
  have hstop : MarkdownFileWatchService.stop s = (s, []) := stop_of_poisoned s hpoison
  simp [MarkdownFileWatchService.start, hparent, hstop, hpoison]

/-- C7 witness: a poisoned idle service rejects `start` with the watch error
and its `stop` does nothing. -/
theorem C7_witness :
    ((MarkdownFileWatchService.start ⟨none, true⟩ (.ok ["t", "a.md"]) none 0 1).result
      = .error (.watch ["t", "a.md"] "internal watcher state is poisoned")) ∧
    ((MarkdownFileWatchService.start ⟨none, true⟩ (.ok ["t", "a.md"]) none 0 1).state
      = ⟨none, true⟩) ∧
    MarkdownFileWatchService.stop ⟨none, true⟩ = (⟨none, true⟩, []) :=
  C7_amended_poisoning ⟨none, true⟩ ["t", "a.md"] ["t"] none 0 1 rfl (by decide)

end MarkdownViewer
